import Mathlib

/-!
Verification of the venue/artist/show directory application.

The file embeds the behavioural core of the application in Lean:

* the genre codec of common/utils.py (convert_genres);
* the past/upcoming show classification loops of show_venue and show_artist
  in app.py, together with the upcoming-show count sites of the venue list
  and the search handlers;
* the write handlers (create/edit/delete) with their try/except/rollback
  discipline, over an explicit session model;
* the detail-view handlers show_venue and show_artist with their
  missing-record error path.

Strings are modelled as lists of characters; timestamps as integers
(ordered reference times); a database exception during commit is modelled
by a boolean oracle, since any exception takes the same except branch.
-/

/-- Characters removed by Python str.strip with no argument (ASCII whitespace). -/
def isPySpace (c : Char) : Bool :=
  c = ' ' || c = '\t' || c = '\n' || c = '\r' || c = '\x0b' || c = '\x0c'

/-- The two brace characters removed by the strip call of convert_genres. -/
def isBrace (c : Char) : Bool :=
  c = '\x7b' || c = '\x7d'

/-- Python str.strip semantics: remove every leading and every trailing
character satisfying the predicate. -/
def pyStrip (p : Char → Bool) (s : List Char) : List Char :=
  ((s.dropWhile p).reverse.dropWhile p).reverse

/-- convert_genres from common/utils.py.  Step 1 joins the input characters
into one string (identity on a character sequence); step 2 strips curly
braces and splits on the comma; step 3 strips whitespace from every piece. -/
def convert_genres (list_input : List Char) : List (List Char) :=
  let joined_string := list_input
  let genres_list := (pyStrip isBrace joined_string).splitOn ','
  genres_list.map (fun genre => pyStrip isPySpace genre)

/-- String-level wrapper of the codec, as the spec's decode_genres. -/
def decode_genres (raw : String) : List String :=
  (convert_genres raw.data).map String.mk

/-- Remove exactly one leading open brace when present (reading of claim C2). -/
def stripOneLeadingOpenBrace : List Char → List Char
  | [] => []
  | c :: cs => if c = '\x7b' then cs else c :: cs

/-- Remove exactly one trailing close brace when present (reading of claim C2). -/
def stripOneTrailingCloseBrace (s : List Char) : List Char :=
  match s.reverse with
  | [] => []
  | c :: cs => if c = '\x7d' then cs.reverse else s

/-- The codec as claim C2 literally describes it: strip exactly one leading
open brace and exactly one trailing close brace if present, split on the
comma, trim whitespace from every piece. -/
def convert_genres_claimC2 (list_input : List Char) : List (List Char) :=
  ((stripOneTrailingCloseBrace (stripOneLeadingOpenBrace list_input)).splitOn ',').map
    (fun genre => pyStrip isPySpace genre)

/-- Remove all leading characters satisfying the predicate (written by
direct recursion, independently of pyStrip). -/
def dropLeadingWhile (p : Char → Bool) : List Char → List Char
  | [] => []
  | c :: cs => if p c then dropLeadingWhile p cs else c :: cs

/-- The codec as the amended claim C2 describes it: strip ALL leading and
ALL trailing brace characters (Python strip-with-charset semantics), split
on the comma, trim all leading and trailing whitespace from every piece. -/
def convert_genres_amendedC2 (list_input : List Char) : List (List Char) :=
  (((dropLeadingWhile isBrace
      ((dropLeadingWhile isBrace list_input).reverse)).reverse).splitOn ',').map
    (fun genre =>
      (dropLeadingWhile isPySpace ((dropLeadingWhile isPySpace genre).reverse)).reverse)

lemma dropLeadingWhile_eq_dropWhile (p : Char → Bool) (l : List Char) :
    dropLeadingWhile p l = l.dropWhile p := by
  induction l with
  | nil => rfl
  | cons c cs ih =>
      by_cases h : p c
      · simp [dropLeadingWhile, List.dropWhile_cons, h, ih]
      · simp [dropLeadingWhile, List.dropWhile_cons, h]

/-- C2 counterexample: on the input of two open braces, Jazz, two close
braces, the code strips both brace pairs while the claim as stated strips
only one of each, so the two disagree. -/
theorem C2_counterexample :
    convert_genres (String.data "\x7b\x7bJazz\x7d\x7d") ≠
      convert_genres_claimC2 (String.data "\x7b\x7bJazz\x7d\x7d") := by
  decide

/-- C2 (amended): convert_genres concatenates the characters into one string,
strips ALL leading and trailing brace characters (not exactly one of each),
splits the remainder on the comma, trims leading and trailing whitespace from
every resulting piece, and returns the pieces in split order with no
deduplication. -/
theorem C2_amended_decode_algorithm (list_input : List Char) :
    convert_genres list_input = convert_genres_amendedC2 list_input := by
  simp [convert_genres, convert_genres_amendedC2, pyStrip, dropLeadingWhile_eq_dropWhile]

/-- C5: decoding the empty string returns the one-element list containing the
empty string, not the empty list. -/
theorem C5_decode_empty_string : decode_genres "" = [""] := by
  decide

/-- A row returned by the show_venue query of app.py: Show.artist_id,
Artist.name, Artist.image_link, Show.start_time. -/
structure ArtistShowRow where
  artist_id : Nat
  artist_name : String
  artist_image_link : String
  start_time : Int
deriving DecidableEq

/-- The artistShowRecord dictionary built in the show_venue loop. -/
structure ArtistShowRecord where
  artist_id : Nat
  artist_name : String
  artist_image_link : String
  start_time : Int
deriving DecidableEq

/-- Build the artistShowRecord dictionary from the queried tuple. -/
def mkArtistShowRecord (r : ArtistShowRow) : ArtistShowRecord :=
  { artist_id := r.artist_id
    artist_name := r.artist_name
    artist_image_link := r.artist_image_link
    start_time := r.start_time }

/-- One iteration of the show_venue loop: append the record to
upcoming_shows when showtime is strictly greater than current_time,
otherwise to past_shows.  The accumulator is (past_shows, upcoming_shows). -/
def show_venue_step (current_time : Int)
    (acc : List ArtistShowRecord × List ArtistShowRecord) (artistShow : ArtistShowRow) :
    List ArtistShowRecord × List ArtistShowRecord :=
  if artistShow.start_time > current_time then
    (acc.1, acc.2 ++ [mkArtistShowRecord artistShow])
  else
    (acc.1 ++ [mkArtistShowRecord artistShow], acc.2)

/-- The full classification loop of show_venue, starting from the two empty
lists, returning (past_shows, upcoming_shows). -/
def show_venue_classify (current_time : Int) (artistShows : List ArtistShowRow) :
    List ArtistShowRecord × List ArtistShowRecord :=
  artistShows.foldl (show_venue_step current_time) ([], [])

/-- A row returned by the show_artist query of app.py: Show.venue_id,
Venue.name, Venue.image_link, Show.start_time. -/
structure VenueShowRow where
  venue_id : Nat
  venue_name : String
  venue_image_link : String
  start_time : Int
deriving DecidableEq

/-- The venueShowRecord dictionary built in the show_artist loop. -/
structure VenueShowRecord where
  venue_id : Nat
  venue_name : String
  venue_image_link : String
  start_time : Int
deriving DecidableEq

/-- Build the venueShowRecord dictionary from the queried tuple. -/
def mkVenueShowRecord (r : VenueShowRow) : VenueShowRecord :=
  { venue_id := r.venue_id
    venue_name := r.venue_name
    venue_image_link := r.venue_image_link
    start_time := r.start_time }

/-- One iteration of the show_artist loop. -/
def show_artist_step (current_time : Int)
    (acc : List VenueShowRecord × List VenueShowRecord) (venueShow : VenueShowRow) :
    List VenueShowRecord × List VenueShowRecord :=
  if venueShow.start_time > current_time then
    (acc.1, acc.2 ++ [mkVenueShowRecord venueShow])
  else
    (acc.1 ++ [mkVenueShowRecord venueShow], acc.2)

/-- The full classification loop of show_artist, returning
(past_shows, upcoming_shows). -/
def show_artist_classify (current_time : Int) (venueShows : List VenueShowRow) :
    List VenueShowRecord × List VenueShowRecord :=
  venueShows.foldl (show_artist_step current_time) ([], [])

/-- A Show row as used by the listing and search count sites of app.py. -/
structure ShowRow where
  venue_id : Nat
  artist_id : Nat
  start_time : Int
deriving DecidableEq

/-- The upcoming-show count of the venues listing in app.py: the count of
shows whose venue_id matches and whose start_time is strictly greater than
current_time. -/
def venues_upcoming_count (shows : List ShowRow) (venueId : Nat) (current_time : Int) : Nat :=
  (shows.filter (fun s => decide (s.venue_id = venueId) && decide (s.start_time > current_time))).length

/-- The upcoming-show count of the search handlers in app.py: filter the
entity's shows by start_time strictly greater than current_time and take
the length. -/
def search_upcoming_count (entityShows : List ShowRow) (current_time : Int) : Nat :=
  (entityShows.filter (fun s => decide (s.start_time > current_time))).length

lemma show_venue_classify_go (t : Int) (rows : List ArtistShowRow) :
    ∀ p u, rows.foldl (show_venue_step t) (p, u) =
      (p ++ (rows.filter (fun r => !decide (r.start_time > t))).map mkArtistShowRecord,
       u ++ (rows.filter (fun r => decide (r.start_time > t))).map mkArtistShowRecord) := by
  induction rows with
  | nil => intro p u; simp
  | cons r rs ih =>
      intro p u
      by_cases h : r.start_time > t
      · simp [show_venue_step, h, ih, List.filter_cons]
      · simp [show_venue_step, h, ih, List.filter_cons]

lemma show_venue_classify_eq (t : Int) (rows : List ArtistShowRow) :
    show_venue_classify t rows =
      ((rows.filter (fun r => !decide (r.start_time > t))).map mkArtistShowRecord,
       (rows.filter (fun r => decide (r.start_time > t))).map mkArtistShowRecord) := by
  simpa [show_venue_classify] using show_venue_classify_go t rows [] []

lemma show_artist_classify_go (t : Int) (rows : List VenueShowRow) :
    ∀ p u, rows.foldl (show_artist_step t) (p, u) =
      (p ++ (rows.filter (fun r => !decide (r.start_time > t))).map mkVenueShowRecord,
       u ++ (rows.filter (fun r => decide (r.start_time > t))).map mkVenueShowRecord) := by
  induction rows with
  | nil => intro p u; simp
  | cons r rs ih =>
      intro p u
      by_cases h : r.start_time > t
      · simp [show_artist_step, h, ih, List.filter_cons]
      · simp [show_artist_step, h, ih, List.filter_cons]

lemma show_artist_classify_eq (t : Int) (rows : List VenueShowRow) :
    show_artist_classify t rows =
      ((rows.filter (fun r => !decide (r.start_time > t))).map mkVenueShowRecord,
       (rows.filter (fun r => decide (r.start_time > t))).map mkVenueShowRecord) := by
  simpa [show_artist_classify] using show_artist_classify_go t rows [] []

lemma mkArtistShowRecord_injective : Function.Injective mkArtistShowRecord := by
  intro a b h
  cases a
  cases b
  simp only [mkArtistShowRecord, ArtistShowRecord.mk.injEq] at h
  simp [h.1, h.2.1, h.2.2.1, h.2.2.2]

lemma mkVenueShowRecord_injective : Function.Injective mkVenueShowRecord := by
  intro a b h
  cases a
  cases b
  simp only [mkVenueShowRecord, VenueShowRecord.mk.injEq] at h
  simp [h.1, h.2.1, h.2.2.1, h.2.2.2]

lemma length_filter_not_add_length_filter (l : List α) (f : α → Bool) :
    (l.filter (fun x => ! f x)).length + (l.filter f).length = l.length := by
  induction l with
  | nil => rfl
  | cons x xs ih =>
      by_cases h : f x
      · simp [List.filter_cons, h]
        omega
      · simp [List.filter_cons, h]
        omega

/-- C1: at every classification site (venue detail loop, artist detail loop,
venue listing count, search count) a show is classified as upcoming exactly
when its start time is strictly greater than the reference time; a show whose
start time equals the reference time goes to the past group and is not
counted as upcoming. -/
theorem C1_strict_upcoming_boundary (t : Int)
    (rows : List ArtistShowRow) (vrows : List VenueShowRow)
    (r : ArtistShowRow) (v : VenueShowRow) (s : ShowRow)
    (shows : List ShowRow) (venueId : Nat)
    (hr : r ∈ rows) (hv : v ∈ vrows) :
    (mkArtistShowRecord r ∈ (show_venue_classify t rows).2 ↔ r.start_time > t)
    ∧ (r.start_time = t → mkArtistShowRecord r ∈ (show_venue_classify t rows).1)
    ∧ (mkVenueShowRecord v ∈ (show_artist_classify t vrows).2 ↔ v.start_time > t)
    ∧ (v.start_time = t → mkVenueShowRecord v ∈ (show_artist_classify t vrows).1)
    ∧ venues_upcoming_count (s :: shows) venueId t =
        venues_upcoming_count shows venueId t +
          (if s.venue_id = venueId ∧ s.start_time > t then 1 else 0)
    ∧ (s.start_time = t →
        venues_upcoming_count (s :: shows) venueId t = venues_upcoming_count shows venueId t)
    ∧ search_upcoming_count (s :: shows) t =
        search_upcoming_count shows t + (if s.start_time > t then 1 else 0)
    ∧ (s.start_time = t →
        search_upcoming_count (s :: shows) t = search_upcoming_count shows t) := by
  rw [show_venue_classify_eq, show_artist_classify_eq]
  refine ⟨?_, ?_, ?_, ?_, ?_, ?_, ?_, ?_⟩
  · simp [List.mem_map, List.mem_filter, mkArtistShowRecord_injective.eq_iff, hr]
  · intro h
    simp [List.mem_map, List.mem_filter, mkArtistShowRecord_injective.eq_iff, hr, h]
  · simp [List.mem_map, List.mem_filter, mkVenueShowRecord_injective.eq_iff, hv]
  · intro h
    simp [List.mem_map, List.mem_filter, mkVenueShowRecord_injective.eq_iff, hv, h]
  · by_cases h1 : s.venue_id = venueId <;> by_cases h2 : s.start_time > t <;>
      simp [venues_upcoming_count, List.filter_cons, h1, h2]
  · intro h
    simp [venues_upcoming_count, List.filter_cons, h]
  · by_cases h2 : s.start_time > t <;> simp [search_upcoming_count, List.filter_cons, h2]
  · intro h
    simp [search_upcoming_count, List.filter_cons, h]

/-- Witness for C1 at concrete inputs: a show starting exactly at the
reference time lands in the past group of both detail loops. -/
theorem C1_strict_upcoming_boundary_witness :
    mkArtistShowRecord ⟨1, "A", "imgA", 0⟩ ∈ (show_venue_classify 0 [⟨1, "A", "imgA", 0⟩]).1
    ∧ mkVenueShowRecord ⟨2, "V", "imgV", 0⟩ ∈ (show_artist_classify 0 [⟨2, "V", "imgV", 0⟩]).1 := by
  have h := C1_strict_upcoming_boundary 0 [⟨1, "A", "imgA", 0⟩] [⟨2, "V", "imgV", 0⟩]
      ⟨1, "A", "imgA", 0⟩ ⟨2, "V", "imgV", 0⟩ ⟨1, 1, 0⟩ [] 1 (by decide) (by decide)
  exact ⟨h.2.1 rfl, h.2.2.2.1 rfl⟩

/-- C3: for a list of N shows of which exactly K start strictly after the
reference time, both detail loops report K upcoming shows, N minus K past
shows, and the two group lengths sum to N. -/
theorem C3_counts (t : Int) (rows : List ArtistShowRow) (vrows : List VenueShowRow)
    (K K2 : Nat)
    (hK : (rows.filter (fun r => decide (r.start_time > t))).length = K)
    (hK2 : (vrows.filter (fun r => decide (r.start_time > t))).length = K2) :
    (show_venue_classify t rows).2.length = K
    ∧ (show_venue_classify t rows).1.length = rows.length - K
    ∧ (show_venue_classify t rows).1.length + (show_venue_classify t rows).2.length = rows.length
    ∧ (show_artist_classify t vrows).2.length = K2
    ∧ (show_artist_classify t vrows).1.length = vrows.length - K2
    ∧ (show_artist_classify t vrows).1.length + (show_artist_classify t vrows).2.length
        = vrows.length := by
  have h1 : (rows.filter (fun r => !decide (r.start_time > t))).length +
      (rows.filter (fun r => decide (r.start_time > t))).length = rows.length :=
    length_filter_not_add_length_filter rows _
  have h2 : (vrows.filter (fun r => !decide (r.start_time > t))).length +
      (vrows.filter (fun r => decide (r.start_time > t))).length = vrows.length :=
    length_filter_not_add_length_filter vrows _
  rw [show_venue_classify_eq, show_artist_classify_eq]
  simp only [List.length_map]
  omega

/-- Witness for C3 at a concrete input: two venue-side shows of which one is
upcoming, one artist-side show starting exactly at the reference time. -/
theorem C3_counts_witness :
    (show_venue_classify 0 [⟨1, "A", "a", 5⟩, ⟨2, "B", "b", -3⟩]).2.length = 1
    ∧ (show_venue_classify 0 [⟨1, "A", "a", 5⟩, ⟨2, "B", "b", -3⟩]).1.length = 1
    ∧ (show_artist_classify 0 [⟨3, "V", "v", 0⟩]).2.length = 0 := by
  have h := C3_counts 0 [⟨1, "A", "a", 5⟩, ⟨2, "B", "b", -3⟩] [⟨3, "V", "v", 0⟩] 1 0
      (by decide) (by decide)
  exact ⟨h.1, by simpa using h.2.1, h.2.2.2.1⟩

/-- C4: in both detail loops the past list and the upcoming list are
order-preserving selections (sublists) of the input rows mapped to display
records; no re-sorting is applied. -/
theorem C4_order_preservation (t : Int) (rows : List ArtistShowRow)
    (vrows : List VenueShowRow) :
    List.Sublist (show_venue_classify t rows).1 (rows.map mkArtistShowRecord)
    ∧ List.Sublist (show_venue_classify t rows).2 (rows.map mkArtistShowRecord)
    ∧ List.Sublist (show_artist_classify t vrows).1 (vrows.map mkVenueShowRecord)
    ∧ List.Sublist (show_artist_classify t vrows).2 (vrows.map mkVenueShowRecord) := by
  rw [show_venue_classify_eq, show_artist_classify_eq]
  exact ⟨(List.filter_sublist _).map mkArtistShowRecord,
    (List.filter_sublist _).map mkArtistShowRecord,
    (List.filter_sublist _).map mkVenueShowRecord,
    (List.filter_sublist _).map mkVenueShowRecord⟩

/-- C8: the classification loops are deterministic and pure: identical show
inputs and an identical explicit reference time yield identical outputs, and
the embedding takes the reference time as an explicit argument with no other
source of time. -/
theorem C8_pure_deterministic (t₁ t₂ : Int) (rows₁ rows₂ : List ArtistShowRow)
    (vrows₁ vrows₂ : List VenueShowRow)
    (ht : t₁ = t₂) (hrows : rows₁ = rows₂) (hvrows : vrows₁ = vrows₂) :
    show_venue_classify t₁ rows₁ = show_venue_classify t₂ rows₂
    ∧ show_artist_classify t₁ vrows₁ = show_artist_classify t₂ vrows₂ := by
  subst ht hrows hvrows
  exact ⟨rfl, rfl⟩

/-- Witness for C8 at concrete inputs. -/
theorem C8_pure_deterministic_witness :
    show_venue_classify 0 [⟨1, "A", "a", 1⟩] = show_venue_classify 0 [⟨1, "A", "a", 1⟩]
    ∧ show_artist_classify 0 [⟨2, "V", "v", -1⟩] = show_artist_classify 0 [⟨2, "V", "v", -1⟩] :=
  C8_pure_deterministic 0 0 [⟨1, "A", "a", 1⟩] [⟨1, "A", "a", 1⟩]
    [⟨2, "V", "v", -1⟩] [⟨2, "V", "v", -1⟩] rfl rfl rfl

/-- The raw encoded form of a genre list: an open brace, the names joined
by commas, a close brace. -/
def encode_genres (names : List (List Char)) : List Char :=
  '\x7b' :: (List.intercalate [','] names ++ ['\x7d'])

lemma dropWhile_eq_self_of_none (p : Char → Bool) (l : List Char)
    (h : ∀ c ∈ l, p c = false) : l.dropWhile p = l := by
  cases l with
  | nil => rfl
  | cons c cs => simp [List.dropWhile_cons, h c (List.mem_cons_self c cs)]

lemma pyStrip_wrap (p : Char → Bool) (a b : Char) (body : List Char)
    (ha : p a = true) (hb : p b = true) (hbody : ∀ c ∈ body, p c = false) :
    pyStrip p (a :: (body ++ [b])) = body := by
  have h1 : List.dropWhile p (a :: (body ++ [b])) = List.dropWhile p (body ++ [b]) := by
    simp [List.dropWhile_cons, ha]
  cases body with
  | nil =>
      have e : List.dropWhile p (a :: (([] : List Char) ++ [b])) = [] := by
        simp [List.dropWhile_cons, ha, hb]
      calc pyStrip p (a :: (([] : List Char) ++ [b]))
          = List.reverse (List.dropWhile p
              (List.reverse (List.dropWhile p (a :: (([] : List Char) ++ [b]))))) := rfl
        _ = List.reverse (List.dropWhile p (List.reverse ([] : List Char))) := by rw [e]
        _ = [] := by simp
  | cons c cs =>
      have hc : p c = false := hbody c (by simp)
      have h2 : List.dropWhile p (c :: cs ++ [b]) = c :: cs ++ [b] := by
        simp [List.dropWhile_cons, hc]
      have hrev : List.reverse (c :: cs ++ [b]) = b :: (cs.reverse ++ [c]) := by
        simp
      have h4 : List.dropWhile p (b :: (cs.reverse ++ [c])) =
          List.dropWhile p (cs.reverse ++ [c]) := by
        simp [List.dropWhile_cons, hb]
      have h5 : List.dropWhile p (cs.reverse ++ [c]) = cs.reverse ++ [c] := by
        apply dropWhile_eq_self_of_none
        intro x hx
        rcases List.mem_append.mp hx with h | h
        · exact hbody x (List.mem_cons_of_mem c (List.mem_reverse.mp h))
        · simp only [List.mem_singleton] at h
          subst h
          exact hbody x (List.mem_cons_self x cs)
      calc pyStrip p (a :: (c :: cs ++ [b]))
          = List.reverse (List.dropWhile p
              (List.reverse (List.dropWhile p (a :: (c :: cs ++ [b]))))) := rfl
        _ = List.reverse (List.dropWhile p (List.reverse (c :: cs ++ [b]))) := by rw [h1, h2]
        _ = List.reverse (List.dropWhile p (b :: (cs.reverse ++ [c]))) := by rw [hrev]
        _ = List.reverse (List.dropWhile p (cs.reverse ++ [c])) := by rw [h4]
        _ = List.reverse (cs.reverse ++ [c]) := by rw [h5]
        _ = c :: cs := by simp

lemma intercalate_singleton_piece (sep : List Char) (a : List Char) :
    List.intercalate sep [a] = a := by
  simp [List.intercalate, List.intersperse]

lemma intercalate_cons_cons_piece (sep a b : List Char) (ls : List (List Char)) :
    List.intercalate sep (a :: b :: ls) = a ++ (sep ++ List.intercalate sep (b :: ls)) := by
  simp [List.intercalate, List.intersperse_cons_cons]

lemma mem_intercalate_of (sep : List Char) (ls : List (List Char)) (c : Char)
    (hc : c ∈ List.intercalate sep ls) : c ∈ sep ∨ ∃ n ∈ ls, c ∈ n := by
  induction ls with
  | nil => simp [List.intercalate, List.intersperse] at hc
  | cons a ls ih =>
      cases ls with
      | nil =>
          rw [intercalate_singleton_piece] at hc
          exact Or.inr ⟨a, by simp, hc⟩
      | cons b ms =>
          rw [intercalate_cons_cons_piece] at hc
          rcases List.mem_append.mp hc with h | h
          · exact Or.inr ⟨a, by simp, h⟩
          · rcases List.mem_append.mp h with h | h
            · exact Or.inl h
            · rcases ih h with h | ⟨n, hn, hcn⟩
              · exact Or.inl h
              · exact Or.inr ⟨n, by simp [hn], hcn⟩

/-- C6: for every nonempty list of genre names that are already trimmed and
contain no comma and no brace character, decoding the raw encoded form
(open brace, names joined by commas, close brace) returns exactly the
original list, same elements in the same order. -/
theorem C6_roundtrip (names : List (List Char)) (hne : names ≠ [])
    (hclean : ∀ n ∈ names, ∀ c ∈ n, c ≠ ',' ∧ isBrace c = false)
    (htrim : ∀ n ∈ names, pyStrip isPySpace n = n) :
    convert_genres (encode_genres names) = names := by
  have hbody : ∀ c ∈ List.intercalate [','] names, isBrace c = false := by
    intro c hc
    rcases mem_intercalate_of [','] names c hc with h | ⟨n, hn, hcn⟩
    · simp only [List.mem_singleton] at h
      subst h
      decide
    · exact (hclean n hn c hcn).2
  have hstrip : pyStrip isBrace ('\x7b' :: (List.intercalate [','] names ++ ['\x7d'])) =
      List.intercalate [','] names :=
    pyStrip_wrap isBrace '\x7b' '\x7d' _ (by decide) (by decide) hbody
  have hsplit : (List.intercalate [','] names).splitOn ',' = names := by
    apply List.splitOn_intercalate
    · intro l hl hcl
      exact (hclean l hl ',' hcl).1 rfl
    · exact hne
  have hmap : names.map (fun genre => pyStrip isPySpace genre) = names.map id :=
    List.map_congr_left (fun a ha => htrim a ha)
  simp only [convert_genres, encode_genres]
  rw [hstrip, hsplit, hmap, List.map_id]

/-- Witness for C6 at a concrete input: the encoded pair Jazz, Rock decodes
back to itself. -/
theorem C6_roundtrip_witness :
    convert_genres (encode_genres [['J', 'a', 'z', 'z'], ['R', 'o', 'c', 'k']]) =
      [['J', 'a', 'z', 'z'], ['R', 'o', 'c', 'k']] :=
  C6_roundtrip [['J', 'a', 'z', 'z'], ['R', 'o', 'c', 'k']] (by decide) (by decide) (by decide)

/-- The raw genre value handed to convert_genres: a string, a sequence of
characters, or a value of neither kind (the input class on which the join
step of the codec raises). -/
inductive RawValue
  | ofString (s : String)
  | ofChars (cs : List Char)
  | nonSequence
deriving DecidableEq

/-- The fault signalled by the codec on a malformed input type. -/
inductive CodecFault
  | invalidInput
deriving DecidableEq

/-- convert_genres together with its failure behaviour: the join step
accepts a string or a sequence of characters and raises on any other
value; the strip and split steps never raise.  The fault is returned to
the caller, not handled inside the codec. -/
def convert_genres_raw : RawValue → Except CodecFault (List String)
  | RawValue.ofString s => Except.ok ((convert_genres s.data).map String.mk)
  | RawValue.ofChars cs => Except.ok ((convert_genres cs).map String.mk)
  | RawValue.nonSequence => Except.error CodecFault.invalidInput

/-- C7: the codec faults with InvalidInput exactly when the raw value is
neither a string nor a character sequence, and on every string or
character-sequence input it returns a decoded list and raises nothing. -/
theorem C7_invalid_input_fault (v : RawValue) :
    (convert_genres_raw v = Except.error CodecFault.invalidInput ↔ v = RawValue.nonSequence)
    ∧ (∀ s : String, convert_genres_raw (RawValue.ofString s) = Except.ok (decode_genres s))
    ∧ (∀ cs : List Char,
        convert_genres_raw (RawValue.ofChars cs) =
          Except.ok ((convert_genres cs).map String.mk)) := by
  refine ⟨⟨?_, ?_⟩, fun s => rfl, fun cs => rfl⟩
  · intro h
    cases v with
    | ofString s => simp [convert_genres_raw] at h
    | ofChars cs => simp [convert_genres_raw] at h
    | nonSequence => rfl
  · intro h
    subst h
    rfl

/-- A Venue record with the attributes read by app.py. -/
structure Venue where
  id : Nat
  name : String
  city : String
  state : String
  address : String
  phone : String
  genres : RawValue
  image_link : String
  facebook_link : String
  website_link : String
  seeking_talent : Bool
  seeking_description : String
deriving DecidableEq

/-- An Artist record with the attributes read by app.py. -/
structure Artist where
  id : Nat
  name : String
  city : String
  state : String
  phone : String
  genres : RawValue
  image_link : String
  facebook_link : String
  website_link : String
  seeking_venue : Bool
  seeking_description : String
deriving DecidableEq

/-- A write operation staged in the ORM session. -/
inductive DbOp (α : Type)
  | add (x : α)
  | del (id : Nat)
  | upd (id : Nat) (x : α)
deriving DecidableEq

/-- The ORM session: committed rows of the persistent store plus staged
pending operations not yet committed. -/
structure DbSession (α : Type) where
  committed : List α
  pending : List (DbOp α)
deriving DecidableEq

/-- Apply one staged operation to the committed rows. -/
def applyOp (getId : α → Nat) (store : List α) : DbOp α → List α
  | DbOp.add x => store ++ [x]
  | DbOp.del i => store.filter (fun y => !decide (getId y = i))
  | DbOp.upd i x => store.map (fun y => if getId y = i then x else y)

/-- db.session.commit: apply every pending operation to the store. -/
def commitSession (getId : α → Nat) (s : DbSession α) : DbSession α :=
  { committed := s.pending.foldl (applyOp getId) s.committed, pending := [] }

/-- db.session.rollback: discard the pending operations. -/
def rollbackSession (s : DbSession α) : DbSession α :=
  { s with pending := [] }

/-- db.session.close: release the session; uncommitted work is discarded. -/
def closeSession (s : DbSession α) : DbSession α :=
  { s with pending := [] }

/-- The response of a write handler: a success flash, or a flash plus abort
with an HTTP error status. -/
inductive HandlerResponse
  | success (flashMsg : String)
  | errorAbort (status : Nat) (flashMsg : String)
deriving DecidableEq

/-- create_venue_submission of app.py: stage the new venue and commit; on
an exception roll back; finally close; flash an error and abort 500 when
the try block failed, flash success otherwise.  commitOk models whether
the commit raises. -/
def create_venue_submission (commitOk : Bool) (s0 : DbSession Venue) (form : Venue) :
    DbSession Venue × HandlerResponse :=
  let s1 : DbSession Venue := { s0 with pending := s0.pending ++ [DbOp.add form] }
  if commitOk then
    (closeSession (commitSession Venue.id s1),
      HandlerResponse.success ("Venue " ++ form.name ++ " was successfully listed!"))
  else
    (closeSession (rollbackSession s1),
      HandlerResponse.errorAbort 500
        ("An error occurred. Venue " ++ form.name ++ " could not be listed."))

/-- edit_artist_submission of app.py: fetch the artist by primary key
(populate_obj raises when the record is missing), stage the update and
commit; roll back on exception; abort 404 on error. -/
def edit_artist_submission (commitOk : Bool) (s0 : DbSession Artist)
    (artist_id : Nat) (form : Artist) : DbSession Artist × HandlerResponse :=
  match s0.committed.find? (fun a => decide (a.id = artist_id)) with
  | none =>
      (closeSession (rollbackSession s0),
        HandlerResponse.errorAbort 404
          ("An error occurred. Artist " ++ toString artist_id ++ " not found."))
  | some _ =>
      let s1 : DbSession Artist := { s0 with pending := s0.pending ++ [DbOp.upd artist_id form] }
      if commitOk then
        (closeSession (commitSession Artist.id s1),
          HandlerResponse.success ("Artist " ++ form.name ++ " was successfully updated!"))
      else
        (closeSession (rollbackSession s1),
          HandlerResponse.errorAbort 404
            ("An error occurred. Artist " ++ toString artist_id ++ " not found."))

/-- delete_venue of app.py: fetch the venue by primary key (deleting a
missing record raises), stage the delete and commit; roll back on
exception; abort 404 on error. -/
def delete_venue (commitOk : Bool) (s0 : DbSession Venue) (venue_id : Nat) :
    DbSession Venue × HandlerResponse :=
  match s0.committed.find? (fun v => decide (v.id = venue_id)) with
  | none =>
      (closeSession (rollbackSession s0),
        HandlerResponse.errorAbort 404
          ("An error occurred. Venue " ++ toString venue_id ++ " not found."))
  | some venue =>
      let s1 : DbSession Venue := { s0 with pending := s0.pending ++ [DbOp.del venue.id] }
      if commitOk then
        (closeSession (commitSession Venue.id s1),
          HandlerResponse.success ("Venue " ++ toString venue_id ++ " was successfully deleted!"))
      else
        (closeSession (rollbackSession s1),
          HandlerResponse.errorAbort 404
            ("An error occurred. Venue " ++ toString venue_id ++ " not found."))

/-- create_artist_submission of app.py: stage the new artist and commit;
on an exception roll back; finally close; flash an error and abort 500
when the try block failed, flash success otherwise. -/
def create_artist_submission (commitOk : Bool) (s0 : DbSession Artist) (form : Artist) :
    DbSession Artist × HandlerResponse :=
  let s1 : DbSession Artist := { s0 with pending := s0.pending ++ [DbOp.add form] }
  if commitOk then
    (closeSession (commitSession Artist.id s1),
      HandlerResponse.success ("Artist " ++ form.name ++ " was successfully listed!"))
  else
    (closeSession (rollbackSession s1),
      HandlerResponse.errorAbort 500
        ("An error occurred. Artist " ++ form.name ++ " could not be listed."))

/-- edit_venue_submission of app.py: fetch the venue by primary key
(populate_obj raises when the record is missing), stage the update and
commit; roll back on exception; abort 404 on error. -/
def edit_venue_submission (commitOk : Bool) (s0 : DbSession Venue)
    (venue_id : Nat) (form : Venue) : DbSession Venue × HandlerResponse :=
  match s0.committed.find? (fun v => decide (v.id = venue_id)) with
  | none =>
      (closeSession (rollbackSession s0),
        HandlerResponse.errorAbort 404
          ("An error occurred. Venue " ++ toString venue_id ++ " not found."))
  | some _ =>
      let s1 : DbSession Venue := { s0 with pending := s0.pending ++ [DbOp.upd venue_id form] }
      if commitOk then
        (closeSession (commitSession Venue.id s1),
          HandlerResponse.success ("Venue " ++ form.name ++ " was successfully updated!"))
      else
        (closeSession (rollbackSession s1),
          HandlerResponse.errorAbort 404
            ("An error occurred. Venue " ++ toString venue_id ++ " not found."))

/-- A Show record as created by the show submission form of app.py:
identity plus the venue, artist and start-time fields the form binds. -/
structure ShowEntity where
  id : Nat
  venue_id : Nat
  artist_id : Nat
  start_time : Int
deriving DecidableEq

/-- create_show_submission of app.py: stage the new show and commit; on an
exception roll back; finally close; flash an error and abort 500 when the
try block failed, flash success otherwise. -/
def create_show_submission (commitOk : Bool) (s0 : DbSession ShowEntity) (form : ShowEntity) :
    DbSession ShowEntity × HandlerResponse :=
  let s1 : DbSession ShowEntity := { s0 with pending := s0.pending ++ [DbOp.add form] }
  if commitOk then
    (closeSession (commitSession ShowEntity.id s1),
      HandlerResponse.success "Show was successfully listed!")
  else
    (closeSession (rollbackSession s1),
      HandlerResponse.errorAbort 500 "An error occurred. Show could not be listed.")

/-- C9: in every create, edit or delete submission handler (venue, artist
and show), when the database operation raises, the session is rolled back
(no staged operation survives), the committed store is left unchanged, and
the handler aborts with an error status instead of reporting success. -/
theorem C9_rollback_on_error (commitOk : Bool) (h : commitOk = false)
    (sv sw sx : DbSession Venue) (sa sb : DbSession Artist) (ss : DbSession ShowEntity)
    (formV formW : Venue) (formA formB : Artist) (formS : ShowEntity)
    (artist_id venue_id venue_id2 : Nat) :
    ((create_venue_submission commitOk sv formV).1.committed = sv.committed
      ∧ (create_venue_submission commitOk sv formV).1.pending = []
      ∧ ∀ m, (create_venue_submission commitOk sv formV).2 ≠ HandlerResponse.success m)
    ∧ ((create_artist_submission commitOk sb formB).1.committed = sb.committed
      ∧ (create_artist_submission commitOk sb formB).1.pending = []
      ∧ ∀ m, (create_artist_submission commitOk sb formB).2 ≠ HandlerResponse.success m)
    ∧ ((create_show_submission commitOk ss formS).1.committed = ss.committed
      ∧ (create_show_submission commitOk ss formS).1.pending = []
      ∧ ∀ m, (create_show_submission commitOk ss formS).2 ≠ HandlerResponse.success m)
    ∧ ((edit_artist_submission commitOk sa artist_id formA).1.committed = sa.committed
      ∧ (edit_artist_submission commitOk sa artist_id formA).1.pending = []
      ∧ ∀ m, (edit_artist_submission commitOk sa artist_id formA).2 ≠ HandlerResponse.success m)
    ∧ ((edit_venue_submission commitOk sx venue_id2 formW).1.committed = sx.committed
      ∧ (edit_venue_submission commitOk sx venue_id2 formW).1.pending = []
      ∧ ∀ m, (edit_venue_submission commitOk sx venue_id2 formW).2 ≠ HandlerResponse.success m)
    ∧ ((delete_venue commitOk sw venue_id).1.committed = sw.committed
      ∧ (delete_venue commitOk sw venue_id).1.pending = []
      ∧ ∀ m, (delete_venue commitOk sw venue_id).2 ≠ HandlerResponse.success m) := by
  subst h
  refine ⟨?_, ?_, ?_, ?_, ?_, ?_⟩
  · simp [create_venue_submission, closeSession, rollbackSession]
  · simp [create_artist_submission, closeSession, rollbackSession]
  · simp [create_show_submission, closeSession, rollbackSession]
  · cases hfind : sa.committed.find? (fun a => decide (a.id = artist_id)) with
    | none => simp [edit_artist_submission, hfind, closeSession, rollbackSession]
    | some x => simp [edit_artist_submission, hfind, closeSession, rollbackSession]
  · cases hfind : sx.committed.find? (fun v => decide (v.id = venue_id2)) with
    | none => simp [edit_venue_submission, hfind, closeSession, rollbackSession]
    | some x => simp [edit_venue_submission, hfind, closeSession, rollbackSession]
  · cases hfind : sw.committed.find? (fun v => decide (v.id = venue_id)) with
    | none => simp [delete_venue, hfind, closeSession, rollbackSession]
    | some x => simp [delete_venue, hfind, closeSession, rollbackSession]

/-- Witness for C9 at concrete inputs: with a failing commit, the venue
create handler leaves the store unchanged and the show create and venue
delete handlers never report success. -/
theorem C9_rollback_on_error_witness :
    (create_venue_submission false ⟨[], []⟩
        ⟨1, "V", "C", "S", "A", "P", RawValue.ofString "", "i", "f", "w", false, "d"⟩).1.committed
      = ([] : List Venue)
    ∧ (∀ m, (create_show_submission false ⟨[], []⟩ ⟨1, 2, 3, 4⟩).2 ≠ HandlerResponse.success m)
    ∧ ∀ m, (delete_venue false ⟨[], []⟩ 3).2 ≠ HandlerResponse.success m := by
  have h := C9_rollback_on_error false rfl ⟨[], []⟩ ⟨[], []⟩ ⟨[], []⟩ ⟨[], []⟩ ⟨[], []⟩ ⟨[], []⟩
      ⟨1, "V", "C", "S", "A", "P", RawValue.ofString "", "i", "f", "w", false, "d"⟩
      ⟨5, "W", "C", "S", "A", "P", RawValue.ofString "", "i", "f", "w", false, "d"⟩
      ⟨2, "A", "C", "S", "P", RawValue.ofString "", "i", "f", "w", false, "d"⟩
      ⟨6, "B", "C", "S", "P", RawValue.ofString "", "i", "f", "w", false, "d"⟩
      ⟨1, 2, 3, 4⟩ 2 3 4
  exact ⟨h.1.1, h.2.2.1.2.2, h.2.2.2.2.2.2.2⟩

/-- The data dictionary rendered by show_venue. -/
structure VenueData where
  id : Nat
  name : String
  city : String
  state : String
  address : String
  phone : String
  genres : List String
  image_link : String
  facebook_link : String
  website : String
  seeking_talent : Bool
  seeking_description : String
  past_shows : List ArtistShowRecord
  upcoming_shows : List ArtistShowRecord
  past_shows_count : Nat
  upcoming_shows_count : Nat
deriving DecidableEq

/-- The outcome of the show_venue route: a flashed error message together
with an abort status, or a rendered detail page. -/
inductive ShowVenueResult
  | notFound (status : Nat) (flashMsg : String)
  | render (venue : VenueData)
deriving DecidableEq

/-- The show_venue handler of app.py: fetch the venue by id, decode its
genres, classify its shows into past and upcoming; any exception in the
try block (missing venue record, malformed genre value) sets the error
flag, flashes a message and aborts with 404. -/
def show_venue (venues : List Venue) (artistShows : List ArtistShowRow)
    (current_time : Int) (venue_id : Nat) : ShowVenueResult :=
  match venues.find? (fun v => decide (v.id = venue_id)) with
  | none =>
      ShowVenueResult.notFound 404
        ("An error occurred. Venue id " ++ toString venue_id ++ " not found.")
  | some venue =>
      match convert_genres_raw venue.genres with
      | Except.error _ =>
          ShowVenueResult.notFound 404
            ("An error occurred. Venue id " ++ toString venue_id ++ " not found.")
      | Except.ok genres_list =>
          let grouped := show_venue_classify current_time artistShows
          ShowVenueResult.render
            { id := venue.id
              name := venue.name
              city := venue.city
              state := venue.state
              address := venue.address
              phone := venue.phone
              genres := genres_list
              image_link := venue.image_link
              facebook_link := venue.facebook_link
              website := venue.website_link
              seeking_talent := venue.seeking_talent
              seeking_description := venue.seeking_description
              past_shows := grouped.1
              upcoming_shows := grouped.2
              past_shows_count := grouped.1.length
              upcoming_shows_count := grouped.2.length }

/-- The data dictionary rendered by show_artist. -/
structure ArtistData where
  id : Nat
  name : String
  city : String
  state : String
  phone : String
  genres : List String
  image_link : String
  facebook_link : String
  website : String
  seeking_venue : Bool
  seeking_description : String
  past_shows : List VenueShowRecord
  upcoming_shows : List VenueShowRecord
  past_shows_count : Nat
  upcoming_shows_count : Nat
deriving DecidableEq

/-- The outcome of the show_artist route. -/
inductive ShowArtistResult
  | notFound (status : Nat) (flashMsg : String)
  | render (artist : ArtistData)
deriving DecidableEq

/-- The show_artist handler of app.py, the artist-side twin of show_venue. -/
def show_artist (artists : List Artist) (venueShows : List VenueShowRow)
    (current_time : Int) (artist_id : Nat) : ShowArtistResult :=
  match artists.find? (fun a => decide (a.id = artist_id)) with
  | none =>
      ShowArtistResult.notFound 404
        ("An error occurred. Artist id " ++ toString artist_id ++ " not found.")
  | some artist =>
      match convert_genres_raw artist.genres with
      | Except.error _ =>
          ShowArtistResult.notFound 404
            ("An error occurred. Artist id " ++ toString artist_id ++ " not found.")
      | Except.ok genres_list =>
          let grouped := show_artist_classify current_time venueShows
          ShowArtistResult.render
            { id := artist.id
              name := artist.name
              city := artist.city
              state := artist.state
              phone := artist.phone
              genres := genres_list
              image_link := artist.image_link
              facebook_link := artist.facebook_link
              website := artist.website_link
              seeking_venue := artist.seeking_venue
              seeking_description := artist.seeking_description
              past_shows := grouped.1
              upcoming_shows := grouped.2
              past_shows_count := grouped.1.length
              upcoming_shows_count := grouped.2.length }

/-- C10: when no venue (respectively artist) record matches the requested
id, show_venue (respectively show_artist) renders no detail page: it
flashes an error message and answers with HTTP 404. -/
theorem C10_missing_record_404 (venues : List Venue) (artists : List Artist)
    (artistShows : List ArtistShowRow) (venueShows : List VenueShowRow)
    (now : Int) (venue_id artist_id : Nat)
    (hv : venues.find? (fun v => decide (v.id = venue_id)) = none)
    (ha : artists.find? (fun a => decide (a.id = artist_id)) = none) :
    show_venue venues artistShows now venue_id =
      ShowVenueResult.notFound 404
        ("An error occurred. Venue id " ++ toString venue_id ++ " not found.")
    ∧ show_artist artists venueShows now artist_id =
      ShowArtistResult.notFound 404
        ("An error occurred. Artist id " ++ toString artist_id ++ " not found.") := by
  constructor
  · simp [show_venue, hv]
  · simp [show_artist, ha]

/-- Witness for C10 at concrete inputs: an empty store answers 404 for both
detail views. -/
theorem C10_missing_record_404_witness :
    show_venue [] [] 0 1 =
      ShowVenueResult.notFound 404 "An error occurred. Venue id 1 not found."
    ∧ show_artist [] [] 0 2 =
      ShowArtistResult.notFound 404 "An error occurred. Artist id 2 not found." :=
  C10_missing_record_404 [] [] [] [] 0 1 2 rfl rfl
